import Mathlib

/-!
Shallow embedding of the image-classification inference pipeline of the
JMI LCDT repository (main.py, backend/N_api_backend.py, backend/LCDT(X-b).py).
Scores are modelled as rationals; images as single-channel grayscale bitmaps
with 8-bit pixels, matching the mode-L images produced by the decode step.
-/

/-- A pixel of a mode-L (single-channel grayscale) image: an 8-bit intensity. -/
abbrev Pixel := Fin 256

/-- Uploaded raw bytes (the request body before decoding). -/
abbrev ImageBytes := List (Fin 256)

/-- A decoded mode-L bitmap, the result of Image.open followed by a
convert to single-channel mode L.
`pixel x y` is the intensity at column x, row y (total function; only
coordinates below width/height are ever sampled). -/
structure LImage where
  width : ℕ
  height : ℕ
  pixel : ℕ → ℕ → Pixel

/-- IMG_SIZE = 128 (main.py line 23, N_api_backend.py line 23). -/
def IMG_SIZE : ℕ := 128

/-- Embedding of image.resize((IMG_SIZE, IMG_SIZE)): a deterministic
resampling to a 128 x 128 mode-L bitmap, modelled as nearest-neighbour
sampling (the library filter is external to the repository; the contracts
proved below need only that resampling is a deterministic function of the
source bitmap that reproduces source intensities, which any of the library
filters satisfies on 8-bit output). -/
def resizeToModel (img : LImage) : LImage :=
  { width := IMG_SIZE
    height := IMG_SIZE
    pixel := fun x y => img.pixel (x * img.width / IMG_SIZE) (y * img.height / IMG_SIZE) }

/-- Embedding of np.array(image) / 255.0: the 128 x 128 array of
normalized intensities, row by row. -/
def toNormalizedArray (img : LImage) : List (List ℚ) :=
  (List.range img.height).map (fun y =>
    (List.range img.width).map (fun x => ((img.pixel x y : ℕ) : ℚ) / 255))

/-- A 4-dimensional tensor as nested lists, mirroring the numpy array of
shape (1, 128, 128, 1). -/
abbrev Tensor4 := List (List (List (List ℚ)))

/-- Embedding of img_array.reshape(1, IMG_SIZE, IMG_SIZE, 1): wrap the
2-d array in a batch dimension and a trailing channel dimension. -/
def reshape4 (a : List (List ℚ)) : Tensor4 :=
  [a.map (fun row => row.map (fun v => [v]))]

/-- The numpy shape of a (rectangular) 4-d nested list. -/
def shape4 (t : Tensor4) : List ℕ :=
  match t with
  | [] => [0, 0, 0, 0]
  | p :: _ =>
    match p with
    | [] => [t.length, 0, 0, 0]
    | r :: _ =>
      match r with
      | [] => [t.length, p.length, 0, 0]
      | c :: _ => [t.length, p.length, r.length, c.length]

/-- The preprocessing applied to a decoded image in predict_image
(main.py lines 53-58): resize to 128 x 128, divide by 255, reshape to
(1, 128, 128, 1). -/
def preprocessImage (img : LImage) : Tensor4 :=
  reshape4 (toNormalizedArray (resizeToModel img))

/-- An image decoder: Image.open on a byte buffer, returning none when the
bytes are not a decodable image (the PIL exception). The concrete decoder
is library code outside the repository, so the pipeline is parametric in it. -/
abbrev Decoder := ImageBytes → Option LImage

/-- Full preprocess on raw bytes: decode then normalize; none on decode
failure. -/
def preprocess (decode : Decoder) (contents : ImageBytes) : Option Tensor4 :=
  (decode contents).map preprocessImage

/-- A loaded classifier model: the forward pass model.predict(x)[0][0],
a scalar score per input tensor. -/
abbrev Model := Tensor4 → ℚ

/-- The response payload built by predict_image (main.py lines 64-71 and
77-84), restricted to the prediction fields. -/
structure PredictionResult where
  result : String
  confidence : ℚ
  predictionScore : ℚ
  status : String
deriving DecidableEq

/-- The thresholded decision of main.py lines 64-71 (duplicated at
N_api_backend.py lines 50-56): label Danger when the raw score is
strictly above 0.5, Normal otherwise; confidence is the score itself on
the Danger side and one minus the score on the Normal side. -/
def classify (prediction : ℚ) : PredictionResult :=
  if prediction > 1 / 2 then
    { result := "Danger Detected", confidence := prediction
      predictionScore := prediction, status := "danger" }
  else
    { result := "Normal", confidence := 1 - prediction
      predictionScore := prediction, status := "normal" }

/-- An HTTPException as raised by the endpoints: status code and detail. -/
structure HTTPError where
  statusCode : ℕ
  detail : String
deriving DecidableEq

/-- Outcome of an endpoint call: a JSON prediction payload or an HTTP error. -/
abbrev ApiResult := Except HTTPError PredictionResult

/-- Spec wording (section 6): a bad-request-class error is a 4xx status. -/
def badRequestClass (c : ℕ) : Prop := 400 ≤ c ∧ c < 500

instance (c : ℕ) : Decidable (badRequestClass c) := by
  unfold badRequestClass; infer_instance

/-- Spec wording (section 6): a service-unavailable-class error, HTTP 503. -/
def serviceUnavailableClass (c : ℕ) : Prop := c = 503

instance (c : ℕ) : Decidable (serviceUnavailableClass c) := by
  unfold serviceUnavailableClass; infer_instance

/-- Embedding of Python str.startswith: character-by-character comparison
of a candidate head against the string. -/
def startsWith : List Char → List Char → Bool
  | [], _ => true
  | _ :: _, [] => false
  | p :: ps, c :: cs => if p = c then startsWith ps cs else false

/-- The literal the endpoints compare the declared content type against:
file.content_type.startswith of the six characters image slash. -/
def imageSlash : List Char := ['i', 'm', 'a', 'g', 'e', '/']

/-- The content type image/png as a character list, for concrete runs. -/
def pngContentType : List Char := ['i', 'm', 'a', 'g', 'e', '/', 'p', 'n', 'g']

/-- Embedding of the /predict endpoint of main.py (predict_image,
lines 43-88) and of N_api_backend.py (lines 67-91): check the model is
loaded (500 if not), check the declared content type starts with image
slash (400 if not), then read and decode the bytes (a decode exception is
caught by the broad except and re-raised as HTTP 500), run the forward
pass and classify. -/
def predict_image (model : Option Model) (contentType : List Char)
    (decode : Decoder) (contents : ImageBytes) : ApiResult :=
  match model with
  | none => .error { statusCode := 500, detail := "Model not loaded" }
  | some m =>
    if startsWith imageSlash contentType then
      match decode contents with
      | none => .error { statusCode := 500, detail := "Error processing image" }
      | some img => .ok (classify (m (preprocessImage img)))
    else
      .error { statusCode := 400, detail := "File must be an image" }

/-- Embedding of process_and_predict (N_api_backend.py lines 34-56): the
helper checks the model itself and raises 503; a decode exception inside it
propagates to the route and is converted to HTTP 500 there. -/
def process_and_predict (model : Option Model) (decode : Decoder)
    (image_bytes : ImageBytes) : ApiResult :=
  match model with
  | none => .error { statusCode := 503, detail := "Model is not available" }
  | some m =>
    match decode image_bytes with
    | none => .error { statusCode := 500, detail := "Error processing image" }
    | some img => .ok (classify (m (preprocessImage img)))

/-- Guarded module-level model load of main.py lines 25-32 and
N_api_backend.py lines 24-32: a loader failure is caught, logged, and
recorded as the sentinel model = None; it is not re-raised. -/
def guardedModelInit (load : Except String Model) : Option Model :=
  match load with
  | .ok m => some m
  | .error _ => none

/-- Unguarded module-level model load of LCDT(X-b).py lines 11-13:
model = tf.keras.models.load_model(model_path, compile=False) with no
surrounding try/except, so a loader failure propagates out of the module
body (the script crashes). -/
def lcdtModelInit (load : Except String Model) : Except String Model :=
  load

/-- Splitting a string (as a character list) on commas, the embedding of
Python str.split with separator comma: s.split(",") always yields the
list of comma-free segments, one more segment than there are commas. -/
def splitOnComma : List Char → List (List Char)
  | [] => [[]]
  | c :: cs =>
    match splitOnComma cs with
    | [] => [[]]
    | h :: t => if c = ',' then [] :: h :: t else (c :: h) :: t

/-- A base64 decoder (base64.b64decode), parametric: none models the
binascii exception on invalid base64 text. -/
abbrev B64Decoder := List Char → Option ImageBytes

/-- The tail of predict_base64_image after the payload substring has been
extracted: base64-decode it, decode the image, predict and classify; any
exception is caught by the broad except and re-raised as HTTP 500. -/
def predictFromPayload (m : Model) (b64 : B64Decoder) (decode : Decoder)
    (payload : List Char) : ApiResult :=
  match b64 payload with
  | none => .error { statusCode := 500, detail := "Error processing image" }
  | some bs =>
    match decode bs with
    | none => .error { statusCode := 500, detail := "Error processing image" }
    | some img => .ok (classify (m (preprocessImage img)))

/-- Embedding of the /predict-base64 endpoint (predict_base64_image,
main.py lines 90-128 and N_api_backend.py lines 93-116): check the model
(500), split the supplied image string on commas and take element 1 (an
IndexError when there is no comma is caught by the broad except and
surfaced as HTTP 500), then base64-decode that segment and run the
pipeline on the resulting bytes. -/
def predict_base64_image (model : Option Model) (b64 : B64Decoder)
    (decode : Decoder) (image : List Char) : ApiResult :=
  match model with
  | none => .error { statusCode := 500, detail := "Model not loaded" }
  | some m =>
    match (splitOnComma image)[1]? with
    | none => .error { statusCode := 500, detail := "Error processing image" }
    | some payload => predictFromPayload m b64 decode payload

/-- The 256 x 256 solid-white source image of the end-to-end scenario. -/
def whiteImage : LImage :=
  { width := 256, height := 256, pixel := fun _ _ => (255 : Fin 256) }

/-- C1: for every rawScore in the unit interval the decision labels the
result Danger exactly when the score is strictly above 1/2 and Normal
otherwise; in particular classify (1/2) is Normal and classify (51/100)
is Danger. -/
theorem classify_danger_iff_gt_half (p : ℚ) (h0 : 0 ≤ p) (h1 : p ≤ 1) :
    (((classify p).result = "Danger Detected" ∧ (classify p).status = "danger") ↔ 1 / 2 < p)
    ∧ (((classify p).result = "Normal" ∧ (classify p).status = "normal") ↔ ¬ 1 / 2 < p)
    ∧ (classify (1 / 2)).result = "Normal"
    ∧ (classify (51 / 100)).result = "Danger Detected" := by
  refine ⟨?_, ?_, by norm_num [classify], by norm_num [classify]⟩ <;>
    · unfold classify; split_ifs with h <;> simp [h] <;> linarith

/-- Witness for classify_danger_iff_gt_half at p = 3/4. -/
theorem classify_danger_iff_gt_half_witness :
    (0 : ℚ) ≤ 3 / 4 ∧
      ((((classify (3 / 4)).result = "Danger Detected" ∧ (classify (3 / 4)).status = "danger") ↔ (1 : ℚ) / 2 < 3 / 4)
      ∧ (((classify (3 / 4)).result = "Normal" ∧ (classify (3 / 4)).status = "normal") ↔ ¬ (1 : ℚ) / 2 < 3 / 4)
      ∧ (classify (1 / 2)).result = "Normal"
      ∧ (classify (51 / 100)).result = "Danger Detected") :=
  ⟨by norm_num, classify_danger_iff_gt_half (3 / 4) (by norm_num) (by norm_num)⟩

/-- C2: the confidence equals the raw score when the score is above 1/2
and one minus the score otherwise, and for scores in the unit interval the
confidence always lies in the interval from 1/2 to 1. -/
theorem classify_confidence_spec (p : ℚ) (h0 : 0 ≤ p) (h1 : p ≤ 1) :
    (classify p).confidence = (if 1 / 2 < p then p else 1 - p)
    ∧ 1 / 2 ≤ (classify p).confidence ∧ (classify p).confidence ≤ 1 := by
  unfold classify
  split_ifs with h
  · exact ⟨rfl, by show (1 : ℚ) / 2 ≤ p; linarith, by show p ≤ (1 : ℚ); linarith⟩
  · exact ⟨rfl, by show (1 : ℚ) / 2 ≤ 1 - p; linarith, by show (1 : ℚ) - p ≤ 1; linarith⟩

/-- Witness for classify_confidence_spec at p = 1/5. -/
theorem classify_confidence_spec_witness :
    (0 : ℚ) ≤ 1 / 5 ∧
      ((classify (1 / 5)).confidence = (if (1 : ℚ) / 2 < 1 / 5 then (1 : ℚ) / 5 else 1 - 1 / 5)
      ∧ 1 / 2 ≤ (classify (1 / 5)).confidence ∧ (classify (1 / 5)).confidence ≤ 1) :=
  ⟨by norm_num, classify_confidence_spec (1 / 5) (by norm_num) (by norm_num)⟩

/-- Helper: the range list of length 128 starts with 0. -/
lemma range128_eq_cons : List.range 128 = 0 :: (List.range 127).map Nat.succ :=
  List.range_succ_eq_map 127

/-- Helper: the numpy shape of the preprocessed tensor is (1, 128, 128, 1)
for every decoded image. -/
lemma shape4_preprocessImage (img : LImage) :
    shape4 (preprocessImage img) = [1, 128, 128, 1] := by
  simp only [preprocessImage, reshape4, toNormalizedArray, resizeToModel,
    IMG_SIZE, range128_eq_cons, List.map_cons, shape4]
  simp

/-- Helper: every scalar of the preprocessed tensor is a pixel intensity
divided by 255, hence lies in the unit interval. -/
lemma preprocessImage_mem (img : LImage) :
    ∀ p ∈ preprocessImage img, ∀ r ∈ p, ∀ c ∈ r, ∀ v ∈ c,
      (∃ px : Pixel, v = (px.val : ℚ) / 255) ∧ 0 ≤ v ∧ v ≤ 1 := by
  intro p hp r hr c hc v hv
  simp only [preprocessImage, reshape4, List.mem_singleton] at hp
  subst hp
  simp only [List.mem_map] at hr
  obtain ⟨row, hrow, rfl⟩ := hr
  simp only [List.mem_map] at hc
  obtain ⟨w, hw, rfl⟩ := hc
  simp only [List.mem_singleton] at hv
  subst hv
  simp only [toNormalizedArray, List.mem_map, List.mem_range] at hrow
  obtain ⟨y, _, rfl⟩ := hrow
  simp only [List.mem_map, List.mem_range] at hw
  obtain ⟨x, _, rfl⟩ := hw
  set px := (resizeToModel img).pixel x y with hpx
  refine ⟨⟨px, rfl⟩, by positivity, ?_⟩
  rw [div_le_one (by norm_num)]
  have hlt : px.val ≤ 255 := Nat.lt_succ_iff.mp px.isLt
  exact_mod_cast hlt

/-- C3: on every decodable input, preprocess yields the normalized tensor
of the decoded image: the bitmap is resampled to exactly 128 x 128, each
8-bit intensity is divided by 255, the tensor has numpy shape
(1, 128, 128, 1), and every scalar lies in the unit interval. -/
theorem preprocess_shape_and_range (decode : Decoder) (b : ImageBytes)
    (img : LImage) (h : decode b = some img) :
    preprocess decode b = some (preprocessImage img)
    ∧ (resizeToModel img).width = 128 ∧ (resizeToModel img).height = 128
    ∧ shape4 (preprocessImage img) = [1, 128, 128, 1]
    ∧ ∀ p ∈ preprocessImage img, ∀ r ∈ p, ∀ c ∈ r, ∀ v ∈ c,
        (∃ px : Pixel, v = (px.val : ℚ) / 255) ∧ 0 ≤ v ∧ v ≤ 1 := by
  refine ⟨?_, rfl, rfl, shape4_preprocessImage img, preprocessImage_mem img⟩
  simp [preprocess, h]

/-- Witness for preprocess_shape_and_range: a decoder returning the solid
white bitmap on the empty byte list. -/
theorem preprocess_shape_and_range_witness :
    (fun _ : ImageBytes => some whiteImage) [] = some whiteImage
    ∧ (preprocess (fun _ => some whiteImage) [] = some (preprocessImage whiteImage)
      ∧ (resizeToModel whiteImage).width = 128 ∧ (resizeToModel whiteImage).height = 128
      ∧ shape4 (preprocessImage whiteImage) = [1, 128, 128, 1]
      ∧ ∀ p ∈ preprocessImage whiteImage, ∀ r ∈ p, ∀ c ∈ r, ∀ v ∈ c,
          (∃ px : Pixel, v = (px.val : ℚ) / 255) ∧ 0 ≤ v ∧ v ≤ 1) :=
  ⟨rfl, preprocess_shape_and_range (fun _ => some whiteImage) [] whiteImage rfl⟩

/-- C7: preprocess is deterministic: it is a pure function of the input
bytes, so two calls on equal byte sequences return equal tensors. -/
theorem preprocess_deterministic (decode : Decoder) (b1 b2 : ImageBytes)
    (h : b1 = b2) : preprocess decode b1 = preprocess decode b2 := by
  rw [h]

/-- Witness for preprocess_deterministic on the empty byte list. -/
theorem preprocess_deterministic_witness :
    ([] : ImageBytes) = []
    ∧ preprocess (fun _ => some whiteImage) [] = preprocess (fun _ => some whiteImage) [] :=
  ⟨rfl, preprocess_deterministic (fun _ => some whiteImage) [] [] rfl⟩

/-- Helper: every scalar of the preprocessed solid-white tensor equals 1. -/
lemma preprocessImage_white_all_one :
    ∀ p ∈ preprocessImage whiteImage, ∀ r ∈ p, ∀ c ∈ r, ∀ v ∈ c, v = 1 := by
  intro p hp r hr c hc v hv
  simp only [preprocessImage, reshape4, List.mem_singleton] at hp
  subst hp
  simp only [List.mem_map] at hr
  obtain ⟨row, hrow, rfl⟩ := hr
  simp only [List.mem_map] at hc
  obtain ⟨w, hw, rfl⟩ := hc
  simp only [List.mem_singleton] at hv
  subst hv
  simp only [toNormalizedArray, List.mem_map, List.mem_range] at hrow
  obtain ⟨y, _, rfl⟩ := hrow
  simp only [List.mem_map, List.mem_range] at hw
  obtain ⟨x, _, rfl⟩ := hw
  have hpx : ((resizeToModel whiteImage).pixel x y : ℕ) = 255 := rfl
  rw [hpx]
  norm_num

/-- C8: preprocessing the 256 x 256 solid-white image yields a tensor of
shape (1, 128, 128, 1) whose scalars are all 1, and running the /predict
pipeline with a stub model that always returns 9/10 yields the Danger
label with raw score 9/10 and confidence 9/10. -/
theorem white_image_end_to_end :
    shape4 (preprocessImage whiteImage) = [1, 128, 128, 1]
    ∧ (∀ p ∈ preprocessImage whiteImage, ∀ r ∈ p, ∀ c ∈ r, ∀ v ∈ c, v = 1)
    ∧ predict_image (some (fun _ => 9 / 10)) pngContentType (fun _ => some whiteImage) []
        = .ok { result := "Danger Detected", confidence := 9 / 10
                predictionScore := 9 / 10, status := "danger" } := by
  refine ⟨shape4_preprocessImage whiteImage, preprocessImage_white_all_one, ?_⟩
  have hct : startsWith imageSlash pngContentType = true := by decide
  simp only [predict_image, hct, if_true]
  norm_num [classify]

/-- C9: when the declared content type does not start with image slash the
upload endpoint answers 400 File must be an image, independently of the
decoder and of the uploaded bytes (so the body is never decoded), even
though the model is loaded. -/
theorem content_type_rejected_first (m : Model) (ct : List Char)
    (h : startsWith imageSlash ct = false) (decode : Decoder) (contents : ImageBytes) :
    predict_image (some m) ct decode contents
      = .error { statusCode := 400, detail := "File must be an image" }
    ∧ badRequestClass 400 := by
  refine ⟨?_, by decide⟩
  simp [predict_image, h]

/-- Witness for content_type_rejected_first with content type text. -/
theorem content_type_rejected_first_witness :
    startsWith imageSlash ['t', 'e', 'x', 't'] = false
    ∧ (predict_image (some (fun _ => 0)) ['t', 'e', 'x', 't'] (fun _ => none) []
        = .error { statusCode := 400, detail := "File must be an image" }
      ∧ badRequestClass 400) :=
  ⟨by decide, content_type_rejected_first (fun _ => 0) ['t', 'e', 'x', 't'] (by decide)
    (fun _ => none) []⟩

/-- Counterexample for C4: on undecodable bytes the endpoint answers
HTTP 500, which is not a bad-request-class (4xx) status. -/
theorem decode_error_not_bad_request :
    predict_image (some (fun _ => 0)) pngContentType (fun _ => none) []
      = .error { statusCode := 500, detail := "Error processing image" }
    ∧ ¬ badRequestClass 500 :=
  ⟨rfl, by decide⟩

/-- C4 amended: on undecodable bytes the endpoint fails with the decode
error surfaced as HTTP 500 Error processing image (a server-error status,
not bad-request-class), and the model forward pass is never invoked (the
outcome is the same for every model). -/
theorem decode_error_is_500_and_skips_model (m : Model) (ct : List Char)
    (hct : startsWith imageSlash ct = true) (decode : Decoder) (b : ImageBytes)
    (h : decode b = none) :
    predict_image (some m) ct decode b
      = .error { statusCode := 500, detail := "Error processing image" }
    ∧ ¬ badRequestClass 500 := by
  refine ⟨?_, by decide⟩
  simp [predict_image, hct, h]

/-- Witness for decode_error_is_500_and_skips_model with a stub model and
an always-failing decoder. -/
theorem decode_error_is_500_witness :
    startsWith imageSlash pngContentType = true
    ∧ (fun _ : ImageBytes => (none : Option LImage)) [] = none
    ∧ (predict_image (some (fun _ => 1)) pngContentType (fun _ => none) []
        = .error { statusCode := 500, detail := "Error processing image" }
      ∧ ¬ badRequestClass 500) :=
  ⟨by decide, rfl, decode_error_is_500_and_skips_model (fun _ => 1) pngContentType
    (by decide) (fun _ => none) [] rfl⟩

/-- Counterexample for C5: with the model unavailable the upload endpoint
answers HTTP 500 Model not loaded, which is not the service-unavailable
status 503. -/
theorem model_unavailable_not_503 :
    predict_image none pngContentType (fun _ => some whiteImage) []
      = .error { statusCode := 500, detail := "Model not loaded" }
    ∧ ¬ serviceUnavailableClass 500 :=
  ⟨rfl, by decide⟩

/-- C5 amended: with the model unavailable the upload endpoints fail with
HTTP 500 Model not loaded before any decode or inference is attempted (the
outcome is the same for every decoder and every byte sequence), carrying no
prediction fields; only the helper process_and_predict uses 503. -/
theorem model_unavailable_is_500_before_decode (ct : List Char) (decode : Decoder)
    (b : ImageBytes) :
    predict_image none ct decode b
      = .error { statusCode := 500, detail := "Model not loaded" }
    ∧ process_and_predict none decode b
      = .error { statusCode := 503, detail := "Model is not available" } :=
  ⟨rfl, rfl⟩

/-- Counterexample for C6: in LCDT(X-b).py the module-level load is not
guarded, so a concrete loader failure propagates out (the value stays an
error and is never the loaded-model case), instead of being recorded as a
sentinel unavailable state. -/
theorem lcdt_load_failure_raises :
    lcdtModelInit (.error "Unable to open file h.h5") = .error "Unable to open file h.h5"
    ∧ ∀ m : Model, lcdtModelInit (.error "Unable to open file h.h5") ≠ .ok m :=
  ⟨rfl, fun _ h => Except.noConfusion h⟩

/-- C6 amended: in main.py and N_api_backend.py every load failure is
caught and recorded as the sentinel model = None and a loader success is
kept, while in LCDT(X-b).py the unguarded load propagates the failure. -/
theorem model_load_failure_sentinel (e : String) (m : Model) :
    guardedModelInit (.error e) = none
    ∧ guardedModelInit (.ok m) = some m
    ∧ lcdtModelInit (.error e) = .error e :=
  ⟨rfl, rfl, rfl⟩

/-- Helper: splitting never returns the empty list of segments. -/
lemma splitOnComma_ne_nil (s : List Char) : splitOnComma s ≠ [] := by
  cases s with
  | nil => simp [splitOnComma]
  | cons c cs =>
    simp only [splitOnComma]
    cases h : splitOnComma cs with
    | nil => simp
    | cons hd tl => split_ifs <;> simp

/-- Helper: a comma-free string is a single segment. -/
lemma splitOnComma_of_not_mem {s : List Char} (h : ',' ∉ s) :
    splitOnComma s = [s] := by
  induction s with
  | nil => rfl
  | cons c cs ih =>
    rw [List.mem_cons] at h
    push_neg at h
    obtain ⟨hc, hcs⟩ := h
    simp only [splitOnComma, ih hcs]
    rw [if_neg (Ne.symm hc)]

/-- Helper: splitting a string whose head segment is comma-free peels off
that segment at the first comma. -/
lemma splitOnComma_append (pre rest : List Char) (h : ',' ∉ pre) :
    splitOnComma (pre ++ ',' :: rest) = pre :: splitOnComma rest := by
  induction pre with
  | nil =>
    obtain ⟨hd, tl, hs⟩ : ∃ hd tl, splitOnComma rest = hd :: tl := by
      cases hq : splitOnComma rest with
      | nil => exact absurd hq (splitOnComma_ne_nil rest)
      | cons a b => exact ⟨a, b, rfl⟩
    simp [splitOnComma, hs]
  | cons c cs ih =>
    rw [List.mem_cons] at h
    push_neg at h
    obtain ⟨hc, hcs⟩ := h
    simp only [List.cons_append, splitOnComma, List.append_eq, ih hcs]
    rw [if_neg (Ne.symm hc)]

/-- C10: the base64 endpoint takes segment 1 of the comma-split image
string, so a string with no comma always fails with an HTTP error and no
prediction is ever produced, whatever the base64 and image decoders would
return; and when the string is a comma-free head followed by a comma and a
comma-free payload, only that payload is handed to the base64 decoder. -/
theorem base64_requires_comma (model : Option Model) (b64 : B64Decoder)
    (decode : Decoder) (s : List Char) (h : ',' ∉ s) :
    (∃ e, predict_base64_image model b64 decode s = .error e)
    ∧ ∀ (m : Model) (pre rest : List Char), ',' ∉ pre → ',' ∉ rest →
        predict_base64_image (some m) b64 decode (pre ++ ',' :: rest)
          = predictFromPayload m b64 decode rest := by
  constructor
  · cases model with
    | none => exact ⟨_, rfl⟩
    | some m =>
      refine ⟨{ statusCode := 500, detail := "Error processing image" }, ?_⟩
      simp [predict_base64_image, splitOnComma_of_not_mem h]
  · intro m pre rest hpre hrest
    simp [predict_base64_image, splitOnComma_append pre rest hpre,
      splitOnComma_of_not_mem hrest]

/-- Witness for base64_requires_comma on the comma-free string a. -/
theorem base64_requires_comma_witness :
    (',' ∉ (['a'] : List Char))
    ∧ ((∃ e, predict_base64_image none (fun _ => none) (fun _ => none) ['a'] = .error e)
      ∧ ∀ (m : Model) (pre rest : List Char), ',' ∉ pre → ',' ∉ rest →
          predict_base64_image (some m) (fun _ => none) (fun _ => none) (pre ++ ',' :: rest)
            = predictFromPayload m (fun _ => none) (fun _ => none) rest) :=
  ⟨by decide, base64_requires_comma none (fun _ => none) (fun _ => none) ['a'] (by decide)⟩
